import Mathlib

/-!
Shallow embedding of the i3pyblocks block-aggregation runtime
(`i3pyblocks/core.py`): the `Module` snapshot model (`update`, `result`),
the `PollingModule` loop and default handlers, and the `Runner`
(registration, output serialization, click dispatch) together with a
cooperative-scheduler step relation for the writer, reader and per-block
loop tasks.

Conventions of the embedding:
- Python `Optional[T]` is `Option T`; `Union[str, int, bool]` is `Val`.
- Python dict literals whose keys are fixed are association lists in the
  literal's order; `dict` insertion keeps insertion order, so the module
  registry is a list of entries in registration order.
- A block's abstract `run` method is a data source `src : Nat → RunOutcome`:
  the k-th invocation of `run` either mutates the module (`ok f`) or raises
  an exception with a message (`err e`).
- `stdout` is a list of newline-terminated lines; each `sys.stdout.write`
  in the source emits whole lines only.
-/

namespace I3pyblocks

/-- Snapshot values: Python `Union[str, int, bool]`. -/
inductive Val where
  | str : String → Val
  | int : Int → Val
  | bool : Bool → Val
deriving DecidableEq, Repr

/-- A block (`Module` in core.py): identity, construction-time style
defaults (the `_color`, `_background`, ... attributes set in `__init__`)
and the current snapshot `_state` (the dict assigned by `update`). -/
structure Module where
  name : String
  instance_ : Option String
  _color : Option String
  _background : Option String
  _border : Option String
  _border_top : Option String
  _border_right : Option String
  _border_bottom : Option String
  _border_left : Option String
  _min_width : Option Int
  _align : Option String
  _urgent : Option Bool
  _separator : Option Bool
  _separator_block_width : Option Int
  _markup : Option String
  _short_text : Option String
  _full_text : String
  _state : List (String × Option Val)
deriving DecidableEq, Repr

/-- The keyword arguments of `Module.update` (all optional in the source;
`full_text` defaults to the empty string, the rest to `None`). -/
structure UpdateArgs where
  full_text : String
  short_text : Option String
  color : Option String
  background : Option String
  border : Option String
  border_top : Option String
  border_right : Option String
  border_bottom : Option String
  border_left : Option String
  min_width : Option Int
  align : Option String
  urgent : Option Bool
  separator : Option Bool
  separator_block_width : Option Int
  markup : Option String
deriving DecidableEq, Repr

/-- The default arguments of `update()`: all `None`, `full_text` empty. -/
def UpdateArgs.defaults : UpdateArgs :=
  ⟨"", none, none, none, none, none, none, none, none, none, none, none,
   none, none, none⟩

/-- `Module._get_value_or_default`: return the per-call value when it is
not `None`, otherwise the construction-time attribute. -/
def Module._get_value_or_default (value : Option Val) (attr : Option Val) :
    Option Val :=
  match value with
  | some v => some v
  | none => attr

/-- Inject an `Optional[str]` snapshot value into `Option Val`. -/
def strOpt : Option String → Option Val
  | some s => some (Val.str s)
  | none => none

/-- Inject an `Optional[int]` snapshot value into `Option Val`. -/
def intOpt : Option Int → Option Val
  | some n => some (Val.int n)
  | none => none

/-- Inject an `Optional[bool]` snapshot value into `Option Val`. -/
def boolOpt : Option Bool → Option Val
  | some b => some (Val.bool b)
  | none => none

/-- The dict literal assigned to `self._state` by `Module.update`
(core.py lines 97-119), in the literal's key order (note the source
orders `border_right`, `border_left`, `border_bottom`). -/
def Module.stateOf (m : Module) (a : UpdateArgs) :
    List (String × Option Val) :=
  [ ("name", some (Val.str m.name)),
    ("instance", strOpt m.instance_),
    ("full_text", some (Val.str a.full_text)),
    ("short_text", strOpt a.short_text),
    ("color",
      Module._get_value_or_default (strOpt a.color) (strOpt m._color)),
    ("background",
      Module._get_value_or_default (strOpt a.background)
        (strOpt m._background)),
    ("border",
      Module._get_value_or_default (strOpt a.border) (strOpt m._border)),
    ("border_top",
      Module._get_value_or_default (strOpt a.border_top)
        (strOpt m._border_top)),
    ("border_right",
      Module._get_value_or_default (strOpt a.border_right)
        (strOpt m._border_right)),
    ("border_left",
      Module._get_value_or_default (strOpt a.border_left)
        (strOpt m._border_left)),
    ("border_bottom",
      Module._get_value_or_default (strOpt a.border_bottom)
        (strOpt m._border_bottom)),
    ("min_width",
      Module._get_value_or_default (intOpt a.min_width)
        (intOpt m._min_width)),
    ("align",
      Module._get_value_or_default (strOpt a.align) (strOpt m._align)),
    ("urgent",
      Module._get_value_or_default (boolOpt a.urgent)
        (boolOpt m._urgent)),
    ("separator",
      Module._get_value_or_default (boolOpt a.separator)
        (boolOpt m._separator)),
    ("separator_block_width",
      Module._get_value_or_default (intOpt a.separator_block_width)
        (intOpt m._separator_block_width)),
    ("markup",
      Module._get_value_or_default (strOpt a.markup)
        (strOpt m._markup)) ]

/-- `Module.update`: atomically replace `self._state` with the dict
literal built from the call arguments and the construction defaults. -/
def Module.update (m : Module) (a : UpdateArgs) : Module :=
  { m with _state := Module.stateOf m a }

/-- `Module.result`: the current snapshot with `None`-valued keys
dropped (`{k: v for k, v in self._state.items() if v is not None}`). -/
def Module.result (m : Module) : List (String × Val) :=
  m._state.filterMap (fun kv => kv.2.map (fun v => (kv.1, v)))

/-- Python truthiness of `name` in `__init__`: falsy (`None` or empty)
falls back to the class name. -/
def resolveName (name : Option String) (className : String) : String :=
  match name with
  | some s => if s = "" then className else s
  | none => className

/-- `Module.__init__`: store identity and style defaults, then call
`self.update()` with no arguments to build the initial snapshot. -/
def Module.init (name : Option String) (className : String)
    (instance_ : Option String)
    (color background border border_top border_right border_bottom
      border_left : Option String)
    (min_width : Option Int) (align : Option String) (urgent : Option Bool)
    (separator : Option Bool) (separator_block_width : Option Int)
    (markup : Option String) : Module :=
  Module.update
    { name := resolveName name className, instance_ := instance_,
      _color := color, _background := background, _border := border,
      _border_top := border_top, _border_right := border_right,
      _border_bottom := border_bottom, _border_left := border_left,
      _min_width := min_width, _align := align, _urgent := urgent,
      _separator := separator,
      _separator_block_width := separator_block_width, _markup := markup,
      _short_text := none, _full_text := "", _state := [] }
    UpdateArgs.defaults

/-- A module built with the `__init__` argument defaults
(`instance="default"` is overridden by the given instance here;
`urgent=False`, `separator=True`, `markup="none"`). -/
def Module.mk0 (name : String) (instance_ : Option String) : Module :=
  Module.init (some name) name instance_ none none none none none none none
    none none (some false) (some true) none (some "none")

/-- One invocation of a polling block's abstract `run` method: either it
mutates the module, or it raises an exception carrying a message. -/
inductive RunOutcome where
  | ok : (Module → Module) → RunOutcome
  | err : String → RunOutcome

/-- Whether a polling block's `loop` coroutine is still iterating or has
hit the terminal exception branch. -/
inductive LoopStatus where
  | active : LoopStatus
  | failed : LoopStatus
deriving DecidableEq, Repr

/-- The arguments of the diagnostic `self.update(...)` call in
`PollingModule.loop`: `full_text` is
`"Exception in " + name + ": " + message` and `urgent=True`. -/
def PollingModule.diagArgs (name msg : String) : UpdateArgs :=
  { UpdateArgs.defaults with
      full_text := "Exception in " ++ name ++ ": " ++ msg,
      urgent := some true }

/-- `PollingModule.loop`, run for at most `fuel` iterations of the
`while True` body over the data source `src`, starting at invocation
index `k`: each iteration calls `run` then sleeps; the first exception
performs the diagnostic update and leaves the loop for good. Returns the
module, the total number of `run` invocations made, and whether the loop
failed. -/
def PollingModule.loopSteps (src : Nat → RunOutcome) :
    Nat → Module → Nat → Module × Nat × LoopStatus
  | 0, m, k => (m, k, LoopStatus.active)
  | fuel + 1, m, k =>
    match src k with
    | RunOutcome.ok f => PollingModule.loopSteps src fuel (f m) (k + 1)
    | RunOutcome.err e =>
      (m.update (PollingModule.diagArgs m.name e), k + 1, LoopStatus.failed)

/-- A parsed inbound click event: the fields read off the JSON object
with `.get`, each `none` when the key is absent. -/
structure ClickEvent where
  name : Option String
  instance_ : Option String
  x : Option Int
  y : Option Int
  button : Option Int
  relative_x : Option Int
  relative_y : Option Int
  width : Option Int
  height : Option Int
  modifiers : Option (List String)
deriving DecidableEq, Repr

/-- A raw chunk of the inbound click stream, abstracting `json.loads`:
either it parses to a click-event object or parsing raises. -/
inductive RawEvent where
  | valid : ClickEvent → RawEvent
  | malformed : RawEvent
deriving DecidableEq, Repr

/-- A registered block together with its registry key and the state of
its `loop` task: the data source standing for its `run` method, how many
times `run` has been invoked so far, whether its loop already failed, and
an instrumentation log of the click events its `click_handler` received. -/
structure Entry where
  key : String
  module : Module
  src : Nat → RunOutcome
  runCount : Nat
  status : LoopStatus
  clicks : List ClickEvent

/-- One invocation of `self.run()` on a polling block's task state:
consume the next outcome of the data source; an exception is reported as
a message and propagates to the caller. -/
def PollingModule.run_step (en : Entry) : Entry × Option String :=
  match en.src en.runCount with
  | RunOutcome.ok f =>
    ({ en with module := f en.module, runCount := en.runCount + 1 }, none)
  | RunOutcome.err e => ({ en with runCount := en.runCount + 1 }, some e)

/-- `PollingModule.click_handler(self, *_, **__)`: ignore every argument
and call `self.run()`. -/
def PollingModule.click_handler (ev : ClickEvent) (en : Entry) :
    Entry × Option String :=
  PollingModule.run_step en

/-- `PollingModule.signal_handler(self, *_, **__)`: ignore every argument
and call `self.run()`. -/
def PollingModule.signal_handler (signum : Int) (frame : Option Unit)
    (en : Entry) : Entry × Option String :=
  PollingModule.run_step en

/-- Python `x or 'none'` on an `Optional[str]`: `None` and the empty
string are falsy and yield `"none"`. -/
def orNoneLit : Option String → String
  | none => "none"
  | some s => if s = "" then "none" else s

/-- f-string rendering of an `Optional[str]`: `None` prints `"None"`. -/
def fstr : Option String → String
  | none => "None"
  | some s => s

/-- `Runner._get_module_key(module)`:
`f"{module.name}__{module.instance or 'none'}"`. -/
def Runner._get_module_key (m : Module) : String :=
  m.name ++ "__" ++ orNoneLit m.instance_

/-- The key string `Runner._get_module_from_key` builds from a click
event's `name` and `instance` fields: `f"{name}__{instance or 'none'}"`
(a missing `name` renders as `"None"`). -/
def Runner.eventKey (name instance_ : Option String) : String :=
  fstr name ++ "__" ++ orNoneLit instance_

/-- `Runner._get_module_from_key(name, instance)`: `dict.get` on the
registry, i.e. the first (and, with unique keys, only) entry whose key
matches, if any. -/
def Runner._get_module_from_key (reg : List Entry)
    (name instance_ : Option String) : Option Entry :=
  reg.find? (fun en => en.key == Runner.eventKey name instance_)

/-- A fresh entry for a newly registered module: its `loop()` task starts
active with no `run` invocation yet. -/
def Runner.newEntry (m : Module) (src : Nat → RunOutcome) : Entry :=
  { key := Runner._get_module_key m, module := m, src := src,
    runCount := 0, status := LoopStatus.active, clicks := [] }

/-- `Runner.register_module(module)`: compute the key; if it is already a
registry key raise `ValueError` (leaving the registry untouched and
starting no task), otherwise insert at the end of the registry and start
the module's loop task. -/
def Runner.register_module (reg : List Entry) (m : Module)
    (src : Nat → RunOutcome) : Except String (List Entry) :=
  if (reg.map Entry.key).contains (Runner._get_module_key m) then
    Except.error ("Module \x27" ++ m.name ++ "\x27 with instance \x27" ++
      fstr m.instance_ ++ "\x27 already exists")
  else
    Except.ok (reg ++ [Runner.newEntry m src])

/-- The registry after a `register_module` call as seen by the caller: on
`ValueError` the exception propagates and the registry is unchanged. -/
def Runner.regAfter (reg : List Entry) (m : Module)
    (src : Nat → RunOutcome) : List Entry :=
  match Runner.register_module reg m src with
  | Except.ok reg2 => reg2
  | Except.error _ => reg

/-- A sequence of `register_module` calls; the first `ValueError`
aborts. -/
def Runner.registerAll (reg : List Entry) :
    List (Module × (Nat → RunOutcome)) → Except String (List Entry)
  | [] => Except.ok reg
  | (m, src) :: rest =>
    match Runner.register_module reg m src with
    | Except.ok reg2 => Runner.registerAll reg2 rest
    | Except.error e => Except.error e

/-- One hexadecimal digit. -/
def hexDigit (n : Nat) : Char :=
  if n < 10 then Char.ofNat (48 + n) else Char.ofNat (87 + (n - 10))

/-- `json.dumps` escaping of one character inside a JSON string (the
ASCII fragment; code points ≥ 32 other than quote and backslash are kept
as-is). -/
def jsonEscapeChar (c : Char) : String :=
  if c = Char.ofNat 34 then "\\\""
  else if c = '\\' then "\\\\"
  else if c = Char.ofNat 10 then "\\n"
  else if c = Char.ofNat 13 then "\\r"
  else if c = Char.ofNat 9 then "\\t"
  else if c.toNat < 32 then
    "\\u00" ++ String.singleton (hexDigit (c.toNat / 16)) ++
      String.singleton (hexDigit (c.toNat % 16))
  else String.singleton c

/-- A JSON string literal for `s`. -/
def jsonStr (s : String) : String :=
  "\"" ++ String.join (s.data.map jsonEscapeChar) ++ "\""

/-- `json.dumps` of one snapshot value. -/
def jsonVal : Val → String
  | Val.str s => jsonStr s
  | Val.int n => toString n
  | Val.bool b => if b then "true" else "false"

/-- `json.dumps` of a `result()` mapping, with Python's default
separators `", "` and `": "`. -/
def json_dumps (pairs : List (String × Val)) : String :=
  "\x7b" ++
    String.intercalate ", "
      (pairs.map (fun kv => jsonStr kv.1 ++ ": " ++ jsonVal kv.2)) ++
    "\x7d"

/-- `Runner.write_result`: one tick line — every registered module's
`result()`, serialized in registry order, joined by commas inside one
JSON array, with the protocol's trailing comma. -/
def Runner.write_result (reg : List Entry) : String :=
  "[" ++
    String.intercalate ","
      (reg.map (fun en => json_dumps en.module.result)) ++
    "],"

/-- `PollingModule.click_handler` invocation as performed by
`Runner.click_event`: log the event's fields as the invocation record,
then run the handler body (`self.run()`). -/
def Runner.invoke_click_handler (en : Entry) (ev : ClickEvent) :
    Entry × Option String :=
  PollingModule.click_handler ev
    { en with clicks := en.clicks ++ [ev] }

/-- `Runner.click_event(raw)`: parse the chunk with `json.loads`, resolve
`(name, instance)` with `_get_module_from_key`, and call the resolved
module's `click_handler` with the event's fields. A parse failure raises;
an unresolved key leaves `module = None` and the attribute access
`module.click_handler` raises; an exception inside the handler propagates.
Returns the registry as mutated by the call and the raised exception,
if any. -/
def Runner.click_event (reg : List Entry) (raw : RawEvent) :
    List Entry × Option String :=
  match raw with
  | RawEvent.malformed =>
    (reg, some "json.decoder.JSONDecodeError")
  | RawEvent.valid ev =>
    match reg.findIdx? (fun en =>
        en.key == Runner.eventKey ev.name ev.instance_) with
    | none =>
      (reg, some
        "AttributeError: \x27NoneType\x27 object has no attribute \x27click_handler\x27")
    | some i =>
      match reg[i]? with
      | none => (reg, none)
      | some en =>
        let r := Runner.invoke_click_handler en ev
        (reg.set i r.1, r.2)

/-- The scheduler's view of the whole process: the registry (one loop
task per entry), whether the reader task is still running, the pending
inbound click chunks, and the lines written to stdout so far. -/
structure SysState where
  entries : List Entry
  readerAlive : Bool
  events : List RawEvent
  output : List String

/-- One cooperative scheduling choice: resume block `i`'s loop task for
one iteration, let the writer emit one tick, or let the reader consume
one inbound chunk. -/
inductive Action where
  | blockStep : Nat → Action
  | writerTick : Action
  | readerStep : Action
deriving DecidableEq, Repr

/-- One cooperative step of the runtime.
`blockStep i`: one `while True` iteration of entry `i`'s
`PollingModule.loop` — `self.run()` then sleep; an exception performs the
urgent diagnostic update and finishes the task for good; a finished task
does nothing. `writerTick`: one iteration of `Runner.write_results` —
emit the tick line and sleep. `readerStep`: one iteration of
`Runner.click_events` — dispatch the next chunk through
`Runner.click_event` and emit an out-of-band tick; any exception is
caught by the `except` around the reader's `while True`, terminating the
reader task only. -/
def sysStep (s : SysState) : Action → SysState
  | Action.blockStep i =>
    match s.entries[i]? with
    | none => s
    | some en =>
      match en.status with
      | LoopStatus.failed => s
      | LoopStatus.active =>
        match en.src en.runCount with
        | RunOutcome.ok f =>
          let en2 : Entry :=
            { en with module := f en.module, runCount := en.runCount + 1 }
          { s with entries := s.entries.set i en2 }
        | RunOutcome.err e =>
          let en2 : Entry :=
            { en with
                module := en.module.update
                  (PollingModule.diagArgs en.module.name e),
                runCount := en.runCount + 1,
                status := LoopStatus.failed }
          { s with entries := s.entries.set i en2 }
  | Action.writerTick =>
    { s with output := s.output ++ [Runner.write_result s.entries] }
  | Action.readerStep =>
    if s.readerAlive then
      match s.events with
      | [] => s
      | raw :: rest =>
        match Runner.click_event s.entries raw with
        | (reg, none) =>
          { s with entries := reg, events := rest,
                   output := s.output ++ [Runner.write_result reg] }
        | (reg, some _) =>
          { s with entries := reg, events := rest, readerAlive := false }
    else s

/-- Run a list of scheduling choices in order. -/
def runSteps (s : SysState) : List Action → SysState
  | [] => s
  | a :: σ => runSteps (sysStep s a) σ

/-- The two lines written by `Runner.start` before the tasks run: the
protocol header object and the array opener. -/
def Runner.header_write : List String :=
  ["\x7b\"version\": 1, \"click_events\": true\x7d", "["]

/-- `Runner.start`: write the header, then hand control to the task
scheduler with every registered loop task active, the reader alive, and
the given inbound stream (its leading array marker already skipped by
the first `readuntil`). -/
def Runner.start (reg : List Entry) (events : List RawEvent) : SysState :=
  { entries := reg, readerAlive := true, events := events,
    output := Runner.header_write }

/-- The data source of a block whose `run` never raises and never
mutates the module. -/
def srcId : Nat → RunOutcome := fun _ => RunOutcome.ok id

/-- A block named `a__b` with instance `c`. -/
def modA : Module := Module.mk0 "a__b" (some "c")

/-- A block named `a` with instance `b__c` — a different identity. -/
def modB : Module := Module.mk0 "a" (some "b__c")

/-- The registry holding only `modA`. -/
def regAB : List Entry := [Runner.newEntry modA srcId]

/-- A block named `Net` with a null instance. -/
def modC : Module := Module.mk0 "Net" none

/-- A registered block keyed `Disk__/home`, standing for
`("Disk", "/home")`. -/
def regDisk : List Entry :=
  [Runner.newEntry (Module.mk0 "Disk" (some "/home")) srcId]

/-- A click event addressed to the registered key `("Disk", "/home")`. -/
def evHome : ClickEvent :=
  ⟨some "Disk", some "/home", some 1, some 2, some 1, some 3, some 4,
   some 5, some 6, some []⟩

/-- A click event addressed to the unregistered key `("Disk", "/var")`. -/
def evVar : ClickEvent :=
  ⟨some "Disk", some "/var", some 1, some 2, some 1, some 3, some 4,
   some 5, some 6, some []⟩

/-- `dict.get` as index lookup: `find?` returns the element at the index
located by `findIdx?`. -/
theorem find?_eq_findIdx?_bind {α : Type} (p : α → Bool) (l : List α) :
    l.find? p = (l.findIdx? p).bind (fun i => l[i]?) := by
  induction l with
  | nil => rfl
  | cons x xs ih =>
    rw [List.find?_cons]
    cases h : p x
    · have hc : (x :: xs).findIdx? p = (xs.findIdx? p).map (fun k => k + 1) := by
        rw [List.findIdx?_cons, h]
        simp
      rw [hc]
      cases hfi : xs.findIdx? p with
      | none =>
        rw [ih, hfi]
        rfl
      | some i =>
        rw [ih, hfi]
        simp
    · rw [List.findIdx?_cons, h]
      simp

/-- Setting an index to an element with the same image under `f` leaves
the mapped list unchanged. -/
theorem map_set_same {α β : Type} (f : α → β) :
    ∀ (l : List α) (i : Nat) (a b : α), l[i]? = some b → f a = f b →
      (l.set i a).map f = l.map f := by
  intro l
  induction l with
  | nil =>
    intro i a b h _
    simp at h
  | cons x xs ih =>
    intro i a b h hf
    cases i with
    | zero =>
      simp only [List.getElem?_cons_zero, Option.some.injEq] at h
      subst h
      simp [hf]
    | succ n =>
      simp only [List.getElem?_cons_succ] at h
      simp [ih n a b h hf]

/-- `click_event` never changes the key of any registry entry. -/
theorem click_event_keys (reg : List Entry) (raw : RawEvent) :
    ((Runner.click_event reg raw).1).map Entry.key = reg.map Entry.key := by
  cases raw with
  | malformed => rfl
  | valid ev =>
    cases hfi : reg.findIdx? (fun en =>
        en.key == Runner.eventKey ev.name ev.instance_) with
    | none => simp [Runner.click_event, hfi]
    | some i =>
      cases hen : reg[i]? with
      | none => simp [Runner.click_event, hfi, hen]
      | some en =>
        have hkey : (Runner.invoke_click_handler en ev).1.key = en.key := by
          cases h : en.src en.runCount <;>
            simp [Runner.invoke_click_handler,
              PollingModule.click_handler, PollingModule.run_step, h]
        simp only [Runner.click_event, hfi, hen]
        exact map_set_same Entry.key reg i _ en hen hkey

/-- When dispatching a chunk raises, no entry's module snapshot or loop
status changes (a handler that raises does so inside `run`, before any
mutation of the snapshot). -/
theorem click_event_raise_entries (reg : List Entry) (raw : RawEvent)
    (h : (Runner.click_event reg raw).2.isSome = true) :
    ((Runner.click_event reg raw).1).map Entry.status =
      reg.map Entry.status ∧
    ((Runner.click_event reg raw).1).map Entry.module =
      reg.map Entry.module := by
  cases raw with
  | malformed => exact ⟨rfl, rfl⟩
  | valid ev =>
    cases hfi : reg.findIdx? (fun en =>
        en.key == Runner.eventKey ev.name ev.instance_) with
    | none => constructor <;> simp [Runner.click_event, hfi]
    | some i =>
      cases hen : reg[i]? with
      | none => constructor <;> simp [Runner.click_event, hfi, hen]
      | some en =>
        cases hsrc : en.src en.runCount with
        | ok f =>
          exfalso
          simp [Runner.click_event, hfi, hen,
            Runner.invoke_click_handler, PollingModule.click_handler,
            PollingModule.run_step, hsrc] at h
        | err e =>
          have hst : (Runner.invoke_click_handler en ev).1.status =
              en.status := by
            simp [Runner.invoke_click_handler,
              PollingModule.click_handler, PollingModule.run_step, hsrc]
          have hmo : (Runner.invoke_click_handler en ev).1.module =
              en.module := by
            simp [Runner.invoke_click_handler,
              PollingModule.click_handler, PollingModule.run_step, hsrc]
          constructor
          · simp only [Runner.click_event, hfi, hen]
            exact map_set_same Entry.status reg i _ en hen hst
          · simp only [Runner.click_event, hfi, hen]
            exact map_set_same Entry.module reg i _ en hen hmo

/-- No scheduler step changes the sequence of registry keys. -/
theorem sysStep_keys (s : SysState) (a : Action) :
    ((sysStep s a).entries).map Entry.key = s.entries.map Entry.key := by
  cases a with
  | writerTick => rfl
  | blockStep i =>
    cases h1 : s.entries[i]? with
    | none => simp [sysStep, h1]
    | some en =>
      cases h2 : en.status with
      | failed => simp [sysStep, h1, h2]
      | active =>
        cases h3 : en.src en.runCount with
        | ok f =>
          simp only [sysStep, h1, h2, h3]
          exact map_set_same Entry.key s.entries i _ en h1 rfl
        | err e =>
          simp only [sysStep, h1, h2, h3]
          exact map_set_same Entry.key s.entries i _ en h1 rfl
  | readerStep =>
    by_cases hr : s.readerAlive = true
    · cases hev : s.events with
      | nil => simp [sysStep, hr, hev]
      | cons raw rest =>
        have hk := click_event_keys s.entries raw
        cases hce : Runner.click_event s.entries raw with
        | mk reg err2 =>
          rw [hce] at hk
          cases err2 with
          | none => simpa [sysStep, hr, hev, hce] using hk
          | some msg => simpa [sysStep, hr, hev, hce] using hk
    · simp [sysStep, hr]

/-- One scheduler step either leaves the output alone or appends exactly
one tick line serializing a registry with the same key sequence as the
current one. -/
theorem sysStep_output (s : SysState) (a : Action) :
    (sysStep s a).output = s.output ∨
    ∃ es : List Entry, es.map Entry.key = s.entries.map Entry.key ∧
      (sysStep s a).output = s.output ++ [Runner.write_result es] := by
  cases a with
  | writerTick => exact Or.inr ⟨s.entries, rfl, rfl⟩
  | blockStep i =>
    left
    cases h1 : s.entries[i]? with
    | none => simp [sysStep, h1]
    | some en =>
      cases h2 : en.status with
      | failed => simp [sysStep, h1, h2]
      | active =>
        cases h3 : en.src en.runCount with
        | ok f => simp [sysStep, h1, h2, h3]
        | err e => simp [sysStep, h1, h2, h3]
  | readerStep =>
    by_cases hr : s.readerAlive = true
    · cases hev : s.events with
      | nil => left; simp [sysStep, hr, hev]
      | cons raw rest =>
        have hk := click_event_keys s.entries raw
        cases hce : Runner.click_event s.entries raw with
        | mk reg err2 =>
          rw [hce] at hk
          cases err2 with
          | none =>
            right
            exact ⟨reg, hk, by simp [sysStep, hr, hev, hce]⟩
          | some msg => left; simp [sysStep, hr, hev, hce]
    · left; simp [sysStep, hr]

/-- Running any schedule never changes the sequence of registry keys. -/
theorem runSteps_keys (σ : List Action) :
    ∀ s : SysState,
      ((runSteps s σ).entries).map Entry.key = s.entries.map Entry.key := by
  induction σ with
  | nil => intro s; rfl
  | cons a σ2 ih =>
    intro s
    show ((runSteps (sysStep s a) σ2).entries).map Entry.key = _
    rw [ih (sysStep s a), sysStep_keys]

/-- Trace invariant: when the output is the header followed by tick
lines whose registries all share the key sequence `K`, it stays of that
shape under any schedule. -/
theorem runSteps_output_inv (K : List String) (σ : List Action) :
    ∀ (s : SysState) (ticks : List String),
      s.entries.map Entry.key = K →
      s.output = Runner.header_write ++ ticks →
      (∀ line ∈ ticks, ∃ es : List Entry, es.map Entry.key = K ∧
        line = Runner.write_result es) →
      ∃ ticks2, (runSteps s σ).output = Runner.header_write ++ ticks2 ∧
        ∀ line ∈ ticks2, ∃ es : List Entry, es.map Entry.key = K ∧
          line = Runner.write_result es := by
  induction σ with
  | nil =>
    intro s ticks h1 h2 h3
    exact ⟨ticks, h2, h3⟩
  | cons a σ2 ih =>
    intro s ticks h1 h2 h3
    rcases sysStep_output s a with h | ⟨es, hk, ho⟩
    · exact ih (sysStep s a) ticks (by rw [sysStep_keys, h1])
        (by rw [h, h2]) h3
    · refine ih (sysStep s a) (ticks ++ [Runner.write_result es])
        (by rw [sysStep_keys, h1])
        (by rw [ho, h2, List.append_assoc]) ?_
      intro line hline
      rcases List.mem_append.mp hline with hl | hl
      · exact h3 line hl
      · rw [List.mem_singleton] at hl
        exact ⟨es, hk.trans h1, hl⟩

/-- A successful registration sequence appends keys in call order. -/
theorem registerAll_keys :
    ∀ (ms : List (Module × (Nat → RunOutcome))) (reg out : List Entry),
      Runner.registerAll reg ms = Except.ok out →
      out.map Entry.key = reg.map Entry.key ++
        ms.map (fun p => Runner._get_module_key p.1) := by
  intro ms
  induction ms with
  | nil =>
    intro reg out h
    simp only [Runner.registerAll, Except.ok.injEq] at h
    subst h
    simp
  | cons p rest ih =>
    intro reg out h
    obtain ⟨m, src⟩ := p
    cases hreg1 : Runner.register_module reg m src with
    | error e =>
      simp only [Runner.registerAll, hreg1] at h
      exact absurd h (by simp)
    | ok reg2 =>
      simp only [Runner.registerAll, hreg1] at h
      have hreg2 : reg2 = reg ++ [Runner.newEntry m src] := by
        unfold Runner.register_module at hreg1
        by_cases hc : (reg.map Entry.key).contains
            (Runner._get_module_key m) = true
        · rw [if_pos hc] at hreg1
          exact absurd hreg1 (by simp)
        · rw [if_neg hc] at hreg1
          injection hreg1 with h2
          exact h2.symm
      have := ih reg2 out h
      rw [hreg2] at this
      simpa [List.map_append] using this
theorem mem_result_iff (m : Module) (k : String) (v : Val) :
    (k, v) ∈ Module.result m ↔ (k, some v) ∈ m._state := by
  constructor
  · intro h
    simp only [Module.result, List.mem_filterMap] at h
    obtain ⟨⟨k1, v1⟩, hmem, hf⟩ := h
    rw [Option.map_eq_some'] at hf
    obtain ⟨w, hw, heq⟩ := hf
    have hv1 : v1 = some w := hw
    have hk1 : k1 = k := congrArg Prod.fst heq
    have hwv : w = v := congrArg Prod.snd heq
    subst hv1
    subst hk1
    subst hwv
    exact hmem
  · intro h
    simp only [Module.result, List.mem_filterMap]
    exact ⟨(k, some v), h, rfl⟩

/-- Claim C5: `result()` returns exactly the key-value pairs of the
current snapshot whose value is non-null, never a key whose value is
null; in particular a block with no color set (neither at construction
nor in the update call) never emits a `color` key. -/
theorem C5_result_omits_null_fields (m : Module) :
    (∀ (k : String) (v : Val),
      (k, v) ∈ Module.result m ↔ (k, some v) ∈ m._state) ∧
    (∀ a : UpdateArgs, a.color = none → m._color = none →
      ∀ v : Val, (("color", v) ∈ Module.result (Module.update m a)) → False) := by
  constructor
  · exact fun k v => mem_result_iff m k v
  · intro a hac hmc v hv
    rw [mem_result_iff] at hv
    simp only [Module.update, Module.stateOf, hac, hmc, strOpt,
      Module._get_value_or_default, List.mem_cons, Prod.mk.injEq,
      List.mem_singleton, List.not_mem_nil, or_false] at hv
    simp_all

/-- Claim C6: `update()` replaces the snapshot wholesale (the previous
snapshot is never read); `full_text` and `short_text` take the passed
values directly, and every style field takes the passed value when it is
non-null and otherwise falls back to the value supplied at
construction. -/
theorem C6_update_defaults_overridden (m : Module) (a : UpdateArgs) :
    (∀ s, Module.update { m with _state := s } a = Module.update m a) ∧
    ((Module.update m a)._state.lookup "name" = some (some (Val.str m.name))) ∧
    ((Module.update m a)._state.lookup "full_text" =
      some (some (Val.str a.full_text))) ∧
    ((Module.update m a)._state.lookup "short_text" =
      some (strOpt a.short_text)) ∧
    ((Module.update m a)._state.lookup "color" = some
      (match a.color with
       | some c => some (Val.str c)
       | none => strOpt m._color)) ∧
    ((Module.update m a)._state.lookup "background" = some
      (match a.background with
       | some c => some (Val.str c)
       | none => strOpt m._background)) ∧
    ((Module.update m a)._state.lookup "border" = some
      (match a.border with
       | some c => some (Val.str c)
       | none => strOpt m._border)) ∧
    ((Module.update m a)._state.lookup "border_top" = some
      (match a.border_top with
       | some c => some (Val.str c)
       | none => strOpt m._border_top)) ∧
    ((Module.update m a)._state.lookup "border_right" = some
      (match a.border_right with
       | some c => some (Val.str c)
       | none => strOpt m._border_right)) ∧
    ((Module.update m a)._state.lookup "border_left" = some
      (match a.border_left with
       | some c => some (Val.str c)
       | none => strOpt m._border_left)) ∧
    ((Module.update m a)._state.lookup "border_bottom" = some
      (match a.border_bottom with
       | some c => some (Val.str c)
       | none => strOpt m._border_bottom)) ∧
    ((Module.update m a)._state.lookup "min_width" = some
      (match a.min_width with
       | some n => some (Val.int n)
       | none => intOpt m._min_width)) ∧
    ((Module.update m a)._state.lookup "align" = some
      (match a.align with
       | some c => some (Val.str c)
       | none => strOpt m._align)) ∧
    ((Module.update m a)._state.lookup "urgent" = some
      (match a.urgent with
       | some b => some (Val.bool b)
       | none => boolOpt m._urgent)) ∧
    ((Module.update m a)._state.lookup "separator" = some
      (match a.separator with
       | some b => some (Val.bool b)
       | none => boolOpt m._separator)) ∧
    ((Module.update m a)._state.lookup "separator_block_width" = some
      (match a.separator_block_width with
       | some n => some (Val.int n)
       | none => intOpt m._separator_block_width)) ∧
    ((Module.update m a)._state.lookup "markup" = some
      (match a.markup with
       | some c => some (Val.str c)
       | none => strOpt m._markup)) := by
  obtain ⟨ft, stx, c, bg, bd, bt, br, bb, bl, mw, al, ug, sp, sbw, mku⟩ := a
  refine ⟨fun s => rfl, rfl, rfl, rfl, ?_, ?_, ?_, ?_, ?_, ?_, ?_, ?_,
    ?_, ?_, ?_, ?_, ?_⟩
  · cases c <;> rfl
  · cases bg <;> rfl
  · cases bd <;> rfl
  · cases bt <;> rfl
  · cases br <;> rfl
  · cases bl <;> rfl
  · cases bb <;> rfl
  · cases mw <;> rfl
  · cases al <;> rfl
  · cases ug <;> rfl
  · cases sp <;> rfl
  · cases sbw <;> rfl
  · cases mku <;> rfl

/-- Claim C5 witness: for the concrete block `Net` (no color
configured), the membership equivalence holds for `full_text` and the
updated snapshot emits no `color` key. -/
theorem C5_result_omits_null_fields_witness :
    (("full_text", Val.str "") ∈
        Module.result (Module.mk0 "Net" none) ↔
      ("full_text", some (Val.str "")) ∈ (Module.mk0 "Net" none)._state) ∧
    UpdateArgs.defaults.color = none ∧
    (Module.mk0 "Net" none)._color = none ∧
    (("color", Val.str "red") ∈
        Module.result
          (Module.update (Module.mk0 "Net" none) UpdateArgs.defaults) →
      False) := by
  refine ⟨(C5_result_omits_null_fields (Module.mk0 "Net" none)).1 _ _,
    rfl, rfl, ?_⟩
  exact fun h => (C5_result_omits_null_fields (Module.mk0 "Net" none)).2
    UpdateArgs.defaults rfl rfl (Val.str "red") h

/-- Claim C6 witness: for the concrete block `Net` (constructed with
`urgent=False`), an update passing no `urgent` stores the construction
default and an update passing `urgent=True` stores the override. -/
theorem C6_update_defaults_overridden_witness :
    (Module.update (Module.mk0 "Net" none)
        UpdateArgs.defaults)._state.lookup "urgent" =
      some (some (Val.bool false)) ∧
    (Module.update (Module.mk0 "Net" none)
        { UpdateArgs.defaults with
            urgent := some true })._state.lookup "urgent" =
      some (some (Val.bool true)) := by
  constructor
  · exact (C6_update_defaults_overridden (Module.mk0 "Net" none)
      UpdateArgs.defaults).2.2.2.2.2.2.2.2.2.2.2.2.2.1
  · exact (C6_update_defaults_overridden (Module.mk0 "Net" none)
      { UpdateArgs.defaults with
          urgent := some true }).2.2.2.2.2.2.2.2.2.2.2.2.2.1

/-- Claim C9: the default `click_handler` and `signal_handler` of a
polling block both ignore every argument and invoke `run` exactly once
(the run counter advances by exactly 1); when `run` succeeds, the
snapshot is refreshed immediately by that invocation. -/
theorem C9_default_handlers_run_once (ev : ClickEvent) (signum : Int)
    (frame : Option Unit) (en : Entry) :
    PollingModule.click_handler ev en = PollingModule.run_step en ∧
    PollingModule.signal_handler signum frame en =
      PollingModule.run_step en ∧
    (PollingModule.run_step en).1.runCount = en.runCount + 1 ∧
    (∀ f, en.src en.runCount = RunOutcome.ok f →
      (PollingModule.click_handler ev en).1.module = f en.module) := by
  refine ⟨rfl, rfl, ?_, ?_⟩
  · cases h : en.src en.runCount <;>
      simp [PollingModule.run_step, h]
  · intro f hf
    simp [PollingModule.click_handler, PollingModule.run_step, hf]

/-- Claim C9 witness: at the concrete entry for block `Net`, the click
handler equals one `run` invocation, whose ok outcome applies the
fetched mutation to the snapshot immediately. -/
theorem C9_default_handlers_run_once_witness :
    PollingModule.click_handler evHome (Runner.newEntry modC srcId) =
      PollingModule.run_step (Runner.newEntry modC srcId) ∧
    (Runner.newEntry modC srcId).src
        (Runner.newEntry modC srcId).runCount = RunOutcome.ok id ∧
    (PollingModule.click_handler evHome
        (Runner.newEntry modC srcId)).1.module =
      id (Runner.newEntry modC srcId).module := by
  have h := C9_default_handlers_run_once evHome 0 none
    (Runner.newEntry modC srcId)
  exact ⟨h.1, rfl, h.2.2.2 id rfl⟩

/-- Claim C10: the registry key map `name + "__" + (instance or "none")`
is not injective on `(name, instance)` identities: `("a__b", "c")` and
`("a", "b__c")` collide, and a null instance collides with the literal
instance string `"none"`; consequently the distinct identity `modB`
cannot be registered once `modA` is, and click events addressed to
either identity resolve to the same registry entry. -/
theorem C10_key_not_injective :
    Runner._get_module_key modA = Runner._get_module_key modB ∧
    (modA.name, modA.instance_) ≠ (modB.name, modB.instance_) ∧
    Runner._get_module_key (Module.mk0 "x" none) =
      Runner._get_module_key (Module.mk0 "x" (some "none")) ∧
    (∃ msg, Runner.register_module regAB modB srcId =
      Except.error msg) ∧
    Runner._get_module_from_key regAB (some "a__b") (some "c") =
      Runner._get_module_from_key regAB (some "a") (some "b__c") ∧
    (Runner._get_module_from_key regAB (some "a") (some "b__c")).isSome =
      true := by
  refine ⟨rfl, by decide, rfl, ⟨_, rfl⟩, rfl, rfl⟩

/-- Claim C2: registering a block whose key is already present raises a
`ValueError` synchronously, leaves the registry unchanged (the first
block is never replaced) and starts no task (the entry list, one loop
task per entry, is untouched); registering a block with a fresh key
appends it to the registry with a fresh active loop task. -/
theorem C2_registration_uniqueness (reg : List Entry) (m : Module)
    (src : Nat → RunOutcome) :
    ((reg.map Entry.key).contains (Runner._get_module_key m) = true →
      (∃ msg, Runner.register_module reg m src = Except.error msg) ∧
      Runner.regAfter reg m src = reg) ∧
    ((reg.map Entry.key).contains (Runner._get_module_key m) = false →
      Runner.register_module reg m src =
        Except.ok (reg ++ [Runner.newEntry m src]) ∧
      Runner.regAfter reg m src = reg ++ [Runner.newEntry m src]) := by
  constructor
  · intro h
    have hif : Runner.register_module reg m src = Except.error
        ("Module \x27" ++ m.name ++ "\x27 with instance \x27" ++
          fstr m.instance_ ++ "\x27 already exists") := by
      unfold Runner.register_module
      rw [if_pos h]
    refine ⟨⟨_, hif⟩, ?_⟩
    unfold Runner.regAfter
    rw [hif]
  · intro h
    have hne : ¬((reg.map Entry.key).contains
        (Runner._get_module_key m) = true) := by
      rw [h]
      exact Bool.false_ne_true
    have hif : Runner.register_module reg m src =
        Except.ok (reg ++ [Runner.newEntry m src]) := by
      unfold Runner.register_module
      rw [if_neg hne]
    refine ⟨hif, ?_⟩
    unfold Runner.regAfter
    rw [hif]

/-- Claim C2 witness: registering `Disk`/`/home` twice fails and leaves
the one-entry registry as it was; registering a fresh key appends. -/
theorem C2_registration_uniqueness_witness :
    ((regDisk.map Entry.key).contains
        (Runner._get_module_key (Module.mk0 "Disk" (some "/home"))) = true ∧
      Runner.regAfter regDisk (Module.mk0 "Disk" (some "/home")) srcId =
        regDisk) ∧
    ((regDisk.map Entry.key).contains
        (Runner._get_module_key (Module.mk0 "Net" none)) = false ∧
      Runner.register_module regDisk (Module.mk0 "Net" none) srcId =
        Except.ok (regDisk ++
          [Runner.newEntry (Module.mk0 "Net" none) srcId])) := by
  constructor
  · exact ⟨rfl,
      ((C2_registration_uniqueness regDisk
        (Module.mk0 "Disk" (some "/home")) srcId).1 rfl).2⟩
  · exact ⟨rfl,
      ((C2_registration_uniqueness regDisk
        (Module.mk0 "Net" none) srcId).2 rfl).1⟩

/-- Claim C3 counterexample: dispatching an inbound event whose
`(name, instance)` key is not registered raises an `AttributeError`
(`dict.get` returns `None` and `None.click_handler` is an attribute
error) — the claim states such an event does not raise. -/
theorem C3_counterexample_unknown_key_raises :
    (Runner.click_event regDisk (RawEvent.valid evVar)).2 =
      some "AttributeError: \x27NoneType\x27 object has no attribute \x27click_handler\x27" :=
  rfl

/-- Claim C3 (amended): an inbound event whose key is not in the
registry invokes no block's `click_handler` and leaves the registry
unchanged, but the dispatch raises (an attribute error on the `None`
lookup) rather than returning silently; an event whose key matches a
registered block invokes exactly that block's `click_handler` exactly
once with the event's fields, leaving every other entry untouched. -/
theorem C3_click_dispatch (reg : List Entry) (ev : ClickEvent) :
    ((∀ en ∈ reg, en.key ≠ Runner.eventKey ev.name ev.instance_) →
      Runner._get_module_from_key reg ev.name ev.instance_ = none ∧
      (Runner.click_event reg (RawEvent.valid ev)).1 = reg ∧
      (Runner.click_event reg (RawEvent.valid ev)).2.isSome = true) ∧
    (∀ (i : Nat) (en : Entry),
      reg.findIdx? (fun en2 =>
        en2.key == Runner.eventKey ev.name ev.instance_) = some i →
      reg[i]? = some en →
      Runner._get_module_from_key reg ev.name ev.instance_ = some en ∧
      ((Runner.click_event reg (RawEvent.valid ev)).1)[i]? =
        some (Runner.invoke_click_handler en ev).1 ∧
      (Runner.invoke_click_handler en ev).1.clicks = en.clicks ++ [ev] ∧
      (∀ j, j ≠ i →
        ((Runner.click_event reg (RawEvent.valid ev)).1)[j]? = reg[j]?)) := by
  constructor
  · intro h
    have hp : ∀ en ∈ reg,
        (en.key == Runner.eventKey ev.name ev.instance_) = false := by
      intro en hen
      exact beq_eq_false_iff_ne.mpr (h en hen)
    have hfi : reg.findIdx? (fun en =>
        en.key == Runner.eventKey ev.name ev.instance_) = none :=
      List.findIdx?_eq_none_iff.mpr hp
    have hfind : Runner._get_module_from_key reg ev.name ev.instance_ =
        none := by
      rw [Runner._get_module_from_key, find?_eq_findIdx?_bind, hfi]
      rfl
    refine ⟨hfind, ?_, ?_⟩ <;> simp [Runner.click_event, hfi]
  · intro i en hfi hen
    have hfind : Runner._get_module_from_key reg ev.name ev.instance_ =
        some en := by
      rw [Runner._get_module_from_key, find?_eq_findIdx?_bind, hfi]
      simpa using hen
    have hlen : i < reg.length :=
      (List.findIdx?_eq_some_iff_findIdx_eq.mp hfi).1
    refine ⟨hfind, ?_, ?_, ?_⟩
    · simp [Runner.click_event, hfi, hen, List.getElem?_set_self hlen]
    · cases h : en.src en.runCount <;>
        simp [Runner.invoke_click_handler, PollingModule.click_handler,
          PollingModule.run_step, h]
    · intro j hj
      simp [Runner.click_event, hfi, hen,
        List.getElem?_set_ne (Ne.symm hj)]

/-- Claim C3 witness: at the one-entry registry for `("Disk", "/home")`,
the event for unregistered `("Disk", "/var")` changes nothing and
raises, while the event for `("Disk", "/home")` logs exactly one handler
invocation carrying the event's fields. -/
theorem C3_click_dispatch_witness :
    (Runner._get_module_from_key regDisk evVar.name evVar.instance_ =
        none ∧
      (Runner.click_event regDisk (RawEvent.valid evVar)).1 = regDisk ∧
      (Runner.click_event regDisk (RawEvent.valid evVar)).2.isSome =
        true) ∧
    (Runner.invoke_click_handler
        (Runner.newEntry (Module.mk0 "Disk" (some "/home")) srcId)
        evHome).1.clicks = [] ++ [evHome] := by
  constructor
  · refine (C3_click_dispatch regDisk evVar).1 ?_
    intro en hen
    rw [regDisk, List.mem_singleton] at hen
    subst hen
    decide
  · exact ((C3_click_dispatch regDisk evHome).2 0
      (Runner.newEntry (Module.mk0 "Disk" (some "/home")) srcId)
      rfl rfl).2.2.1

/-- After an all-ok prefix of length `i`, the failing `run` invocation
settles the loop: any further fuel changes nothing. -/
theorem loopSteps_err (src : Nat → RunOutcome) (e : String) :
    ∀ (i k : Nat) (m : Module),
      (∀ j, j < i → ∃ f, src (k + j) = RunOutcome.ok f) →
      src (k + i) = RunOutcome.err e →
      ∀ n, PollingModule.loopSteps src (i + 1 + n) m k =
        ((PollingModule.loopSteps src i m k).1.update
          (PollingModule.diagArgs
            (PollingModule.loopSteps src i m k).1.name e),
         k + i + 1, LoopStatus.failed) := by
  intro i
  induction i with
  | zero =>
    intro k m hok herr n
    have h0 : src k = RunOutcome.err e := by simpa using herr
    have ha : (0 : Nat) + 1 + n = n + 1 := by omega
    rw [ha]
    simp [PollingModule.loopSteps, h0]
  | succ i ih =>
    intro k m hok herr n
    obtain ⟨f, hf⟩ := hok 0 (Nat.succ_pos i)
    have hfk : src k = RunOutcome.ok f := by simpa using hf
    have ha : i + 1 + 1 + n = (i + 1 + n) + 1 := by omega
    rw [ha]
    have hstep : PollingModule.loopSteps src ((i + 1 + n) + 1) m k =
        PollingModule.loopSteps src (i + 1 + n) (f m) (k + 1) := by
      simp [PollingModule.loopSteps, hfk]
    rw [hstep]
    have hok2 : ∀ j, j < i → ∃ g, src (k + 1 + j) = RunOutcome.ok g := by
      intro j hj
      obtain ⟨g, hg⟩ := hok (j + 1) (by omega)
      refine ⟨g, ?_⟩
      rw [show k + 1 + j = k + (j + 1) by omega]
      exact hg
    have herr2 : src (k + 1 + i) = RunOutcome.err e := by
      rw [show k + 1 + i = k + (i + 1) by omega]
      exact herr
    have hi := ih (k + 1) (f m) hok2 herr2 n
    rw [hi]
    have hpre : PollingModule.loopSteps src (i + 1) m k =
        PollingModule.loopSteps src i (f m) (k + 1) := by
      simp [PollingModule.loopSteps, hfk]
    rw [hpre]
    rw [show k + 1 + i + 1 = k + (i + 1) + 1 by omega]

/-- Claim C1: if a polling block's `run` raises on invocation `i` inside
`loop`, the loop settles for good — however much longer the scheduler
runs it, the snapshot is the one diagnostic update applied to the state
reached by the ok prefix, `run` is never invoked again (the invocation
count stays `i + 1`), the loop is failed, the diagnostic is urgent and
its text carries the block's name and the error description; a block
step never touches any other entry of the registry. -/
theorem C1_loop_failure_is_terminal (src : Nat → RunOutcome) (i : Nat)
    (e : String) (m : Module)
    (hok : ∀ j, j < i → ∃ f, src j = RunOutcome.ok f)
    (herr : src i = RunOutcome.err e) :
    (∀ n, i < n →
      PollingModule.loopSteps src n m 0 =
        ((PollingModule.loopSteps src i m 0).1.update
          (PollingModule.diagArgs
            (PollingModule.loopSteps src i m 0).1.name e),
         i + 1, LoopStatus.failed)) ∧
    ("urgent", Val.bool true) ∈
      (PollingModule.loopSteps src (i + 1) m 0).1.result ∧
    (PollingModule.loopSteps src (i + 1) m 0).1._state.lookup
        "full_text" =
      some (some (Val.str ("Exception in " ++
        (PollingModule.loopSteps src i m 0).1.name ++ ": " ++ e))) ∧
    (∀ (s : SysState) (idx j : Nat), j ≠ idx →
      ((sysStep s (Action.blockStep idx)).entries)[j]? =
        s.entries[j]?) := by
  have hok0 : ∀ j, j < i → ∃ f, src (0 + j) = RunOutcome.ok f := by
    intro j hj
    simpa using hok j hj
  have herr0 : src (0 + i) = RunOutcome.err e := by simpa using herr
  have hmain : ∀ n, i < n →
      PollingModule.loopSteps src n m 0 =
        ((PollingModule.loopSteps src i m 0).1.update
          (PollingModule.diagArgs
            (PollingModule.loopSteps src i m 0).1.name e),
         i + 1, LoopStatus.failed) := by
    intro n hn
    obtain ⟨d, rfl⟩ : ∃ d, n = i + 1 + d := ⟨n - (i + 1), by omega⟩
    simpa using loopSteps_err src e i 0 m hok0 herr0 d
  refine ⟨hmain, ?_, ?_, ?_⟩
  · rw [hmain (i + 1) (by omega)]
    rw [mem_result_iff]
    simp [Module.update, Module.stateOf, Module._get_value_or_default,
      boolOpt, PollingModule.diagArgs, UpdateArgs.defaults]
  · rw [hmain (i + 1) (by omega)]
    rfl
  · intro s idx j hj
    cases h1 : s.entries[idx]? with
    | none => simp [sysStep, h1]
    | some en =>
      cases h2 : en.status with
      | failed => simp [sysStep, h1, h2]
      | active =>
        cases h3 : en.src en.runCount with
        | ok f =>
          simp [sysStep, h1, h2, h3, List.getElem?_set_ne (Ne.symm hj)]
        | err e2 =>
          simp [sysStep, h1, h2, h3, List.getElem?_set_ne (Ne.symm hj)]

/-- The data source of a block whose `run` succeeds twice and raises
`boom` on its third invocation. -/
def srcBoom : Nat → RunOutcome :=
  fun k => if k < 2 then RunOutcome.ok id else RunOutcome.err "boom"

/-- Claim C1 witness: with `run` raising on its third invocation, nine
fuel units settle the loop at three invocations with the urgent
diagnostic. -/
theorem C1_loop_failure_is_terminal_witness :
    ((∀ j, j < 2 → ∃ f, srcBoom j = RunOutcome.ok f) ∧
      srcBoom 2 = RunOutcome.err "boom") ∧
    PollingModule.loopSteps srcBoom 9 modC 0 =
      ((PollingModule.loopSteps srcBoom 2 modC 0).1.update
        (PollingModule.diagArgs
          (PollingModule.loopSteps srcBoom 2 modC 0).1.name "boom"),
       3, LoopStatus.failed) ∧
    ("urgent", Val.bool true) ∈
      (PollingModule.loopSteps srcBoom 3 modC 0).1.result := by
  have hok : ∀ j, j < 2 → ∃ f, srcBoom j = RunOutcome.ok f := by
    intro j hj
    exact ⟨id, by simp [srcBoom, hj]⟩
  have herr : srcBoom 2 = RunOutcome.err "boom" := rfl
  have h := C1_loop_failure_is_terminal srcBoom 2 "boom" modC hok herr
  exact ⟨⟨hok, herr⟩, h.1 9 (by omega), h.2.1⟩

/-- Claim C4: after any sequence of successful registrations, the
sequence of registry keys equals the registration order forever (no
scheduler step reorders it), and every tick line ever emitted is the
serialization, in registry order, of a registry with exactly that key
sequence — identical across all ticks no matter which blocks refreshed
most recently. -/
theorem C4_ticks_in_registration_order
    (ms : List (Module × (Nat → RunOutcome))) (es : List Entry)
    (events : List RawEvent) (σ : List Action)
    (hreg : Runner.registerAll [] ms = Except.ok es) :
    ((runSteps (Runner.start es events) σ).entries).map Entry.key =
      ms.map (fun p => Runner._get_module_key p.1) ∧
    ∃ ticks, (runSteps (Runner.start es events) σ).output =
      Runner.header_write ++ ticks ∧
      ∀ line ∈ ticks, ∃ es2 : List Entry,
        es2.map Entry.key = ms.map (fun p => Runner._get_module_key p.1) ∧
        line = Runner.write_result es2 := by
  have hkeys : es.map Entry.key =
      ms.map (fun p => Runner._get_module_key p.1) := by
    simpa using registerAll_keys ms [] es hreg
  constructor
  · rw [runSteps_keys]
    exact hkeys
  · refine runSteps_output_inv _ σ (Runner.start es events) [] hkeys ?_ ?_
    · simp [Runner.start]
    · intro line hline
      exact absurd hline (List.not_mem_nil line)

/-- Claim C4 witness: registering two distinct blocks and running a
schedule that interleaves block refreshes with ticks keeps the key order
at the registration order. -/
theorem C4_ticks_in_registration_order_witness :
    Runner.registerAll []
        [(Module.mk0 "Disk" (some "/home"), srcId), (modC, srcId)] =
      Except.ok (Runner.regAfter regDisk modC srcId) ∧
    ((runSteps (Runner.start (Runner.regAfter regDisk modC srcId) [])
        [Action.blockStep 1, Action.writerTick, Action.blockStep 0,
         Action.writerTick]).entries).map Entry.key =
      ["Disk__/home", "Net__none"] := by
  have hreg : Runner.registerAll []
      [(Module.mk0 "Disk" (some "/home"), srcId), (modC, srcId)] =
      Except.ok (Runner.regAfter regDisk modC srcId) := rfl
  have h := C4_ticks_in_registration_order
    [(Module.mk0 "Disk" (some "/home"), srcId), (modC, srcId)]
    (Runner.regAfter regDisk modC srcId) []
    [Action.blockStep 1, Action.writerTick, Action.blockStep 0,
     Action.writerTick] hreg
  exact ⟨hreg, h.1⟩

/-- Claim C7: when parsing or dispatching the next inbound chunk raises,
the reader step terminates the reader task only — the output and every
block's snapshot and loop status are untouched; and neither the writer
step nor any block step depends on whether the reader is alive, so ticks
and block refreshes continue exactly as before. -/
theorem C7_reader_failure_degrades_to_output_only :
    (∀ (s : SysState) (raw : RawEvent) (rest : List RawEvent),
      s.readerAlive = true → s.events = raw :: rest →
      (Runner.click_event s.entries raw).2.isSome = true →
      (sysStep s Action.readerStep).readerAlive = false ∧
      (sysStep s Action.readerStep).output = s.output ∧
      ((sysStep s Action.readerStep).entries).map Entry.status =
        s.entries.map Entry.status ∧
      ((sysStep s Action.readerStep).entries).map Entry.module =
        s.entries.map Entry.module) ∧
    (∀ (s : SysState) (b : Bool) (i : Nat),
      sysStep { s with readerAlive := b } Action.writerTick =
        { sysStep s Action.writerTick with readerAlive := b } ∧
      sysStep { s with readerAlive := b } (Action.blockStep i) =
        { sysStep s (Action.blockStep i) with readerAlive := b }) := by
  constructor
  · intro s raw rest hr hev hraise
    have hmaps := click_event_raise_entries s.entries raw hraise
    cases hce : Runner.click_event s.entries raw with
    | mk reg err2 =>
      rw [hce] at hmaps hraise
      cases err2 with
      | none => exact absurd hraise (by simp)
      | some msg =>
        refine ⟨?_, ?_, ?_, ?_⟩ <;>
          simp only [sysStep, hr, hev, hce, if_true] <;>
          simp [hmaps.1, hmaps.2]
  · intro s b i
    constructor
    · rfl
    · cases h1 : s.entries[i]? with
      | none => simp [sysStep, h1]
      | some en =>
        cases h2 : en.status with
        | failed => simp [sysStep, h1, h2]
        | active =>
          cases h3 : en.src en.runCount with
          | ok f => simp [sysStep, h1, h2, h3]
          | err e => simp [sysStep, h1, h2, h3]

/-- A runtime state about to read a malformed chunk. -/
def sysW : SysState :=
  { entries := regDisk, readerAlive := true,
    events := [RawEvent.malformed], output := Runner.header_write }

/-- Claim C7 witness: a malformed chunk kills the reader of `sysW` while
leaving output, snapshots and loop statuses untouched, and the writer
step is oblivious to the reader's status. -/
theorem C7_reader_failure_degrades_witness :
    ((sysStep sysW Action.readerStep).readerAlive = false ∧
      (sysStep sysW Action.readerStep).output = sysW.output ∧
      ((sysStep sysW Action.readerStep).entries).map Entry.status =
        sysW.entries.map Entry.status) ∧
    sysStep { sysW with readerAlive := false } Action.writerTick =
      { sysStep sysW Action.writerTick with readerAlive := false } := by
  have h1 := C7_reader_failure_degrades_to_output_only.1 sysW
    RawEvent.malformed [] rfl rfl rfl
  have h2 := (C7_reader_failure_degrades_to_output_only.2 sysW false 0).1
  exact ⟨⟨h1.1, h1.2.1, h1.2.2.1⟩, h2⟩

/-- Claim C8: under any schedule, the output stream is exactly one
header line — the object with protocol version 1 and click-event support
true — then one literal array-open line, then tick lines only, each of
which serializes some registry state as a JSON array wrapped as
`[` ... `],` with its trailing comma. -/
theorem C8_header_then_tick_lines (reg : List Entry)
    (events : List RawEvent) (σ : List Action) :
    ∃ ticks, (runSteps (Runner.start reg events) σ).output =
      "\x7b\"version\": 1, \"click_events\": true\x7d" :: "[" :: ticks ∧
      ∀ line ∈ ticks, ∃ (es : List Entry) (mid : String),
        line = Runner.write_result es ∧ line = "[" ++ mid ++ "]," := by
  obtain ⟨ticks, hout, hlines⟩ :=
    runSteps_output_inv (reg.map Entry.key) σ (Runner.start reg events) []
      rfl (by simp [Runner.start]) (fun line hline =>
        absurd hline (List.not_mem_nil line))
  refine ⟨ticks, ?_, ?_⟩
  · rw [hout]
    rfl
  · intro line hline
    obtain ⟨es, _, hl⟩ := hlines line hline
    refine ⟨es,
      String.intercalate ","
        (es.map (fun en => json_dumps en.module.result)), hl, ?_⟩
    rw [hl]
    rfl

/-- Claim C8 witness: the concrete run of one tick over the `Disk`
registry has the protocol shape. -/
theorem C8_header_then_tick_lines_witness :
    ∃ ticks, (runSteps (Runner.start regDisk [])
        [Action.writerTick]).output =
      "\x7b\"version\": 1, \"click_events\": true\x7d" :: "[" :: ticks ∧
      ∀ line ∈ ticks, ∃ (es : List Entry) (mid : String),
        line = Runner.write_result es ∧ line = "[" ++ mid ++ "]," :=
  C8_header_then_tick_lines regDisk [] [Action.writerTick]

end I3pyblocks
